import Mathlib

/-!
Verification development for the scalp_bot trading robot
(`trade_bot_binance_v0.001`).  Python floats are modelled as rationals
(`ℚ`), Python dicts as association lists, and the human-readable reason
strings as inductive reason values that carry the interpolated numbers.
External collaborators (exchange volatility / liquidity reads, wall-clock
time) are passed in explicitly as oracle arguments.
-/

namespace ScalpBot

/-- `RiskConfig` from `app/services/risk_management.py`, with the dataclass
field defaults.  `max_positions_per_symbol`, `max_holding_time_hours` and
`min_time_between_trades_minutes` are ints in the source; the rest are
floats, modelled as `ℚ`. -/
structure RiskConfig where
  max_position_size_usdt : ℚ := 1000
  max_total_exposure_usdt : ℚ := 5000
  max_positions_per_symbol : ℕ := 1
  max_daily_loss_usdt : ℚ := 200
  max_drawdown_percent : ℚ := 10
  stop_loss_percent : ℚ := 5
  take_profit_percent : ℚ := 10
  max_risk_per_trade_percent : ℚ := 2
  max_correlation_threshold : ℚ := 7/10
  max_holding_time_hours : ℕ := 24
  min_time_between_trades_minutes : ℕ := 30
  max_volatility_threshold : ℚ := 1/20
  min_liquidity_usdt : ℚ := 1000000
  min_liquidity_to_position_k : ℚ := 10
  deriving Repr, DecidableEq

/-- `RiskManager.calculate_stop_loss_price`: for BUY,
`entry_price * (1 - stop_loss_percent / 100)`; otherwise
`entry_price * (1 + stop_loss_percent / 100)`. -/
def calculate_stop_loss_price (cfg : RiskConfig) (entry_price : ℚ)
    (side : String) : ℚ :=
  if side = "BUY" then
    entry_price * (1 - cfg.stop_loss_percent / 100)
  else
    entry_price * (1 + cfg.stop_loss_percent / 100)

/-- `RiskManager.calculate_take_profit_price`: for BUY,
`entry_price * (1 + take_profit_percent / 100)`; otherwise
`entry_price * (1 - take_profit_percent / 100)`. -/
def calculate_take_profit_price (cfg : RiskConfig) (entry_price : ℚ)
    (side : String) : ℚ :=
  if side = "BUY" then
    entry_price * (1 + cfg.take_profit_percent / 100)
  else
    entry_price * (1 - cfg.take_profit_percent / 100)

/-- `PositionSide` from `app/services/risk_management.py`. -/
inductive PositionSide where
  | LONG
  | SHORT
  deriving Repr, DecidableEq

/-- `Position` from `app/services/risk_management.py`; the `datetime`
timestamp is modelled as a rational number of seconds. -/
structure Position where
  symbol : String
  side : PositionSide
  quantity : ℚ
  entry_price : ℚ
  current_price : ℚ
  unrealized_pnl : ℚ
  realized_pnl : ℚ
  timestamp : ℚ
  deriving Repr, DecidableEq

/-- The mutable state of a `RiskManager` instance: its config, the
`positions` dict (symbol → list of positions) and the `last_trade_time`
dict (symbol → time in seconds), both modelled as association lists. -/
structure RMState where
  config : RiskConfig
  positions : List (String × List Position) := []
  last_trade_time : List (String × ℚ) := []

/-- `RiskManager._check_time_between_trades`: `True` when the symbol has no
recorded last trade, otherwise whether at least
`min_time_between_trades_minutes * 60` seconds have elapsed. -/
def _check_time_between_trades (st : RMState) (now : ℚ) (symbol : String) : Bool :=
  match st.last_trade_time.lookup symbol with
  | none => true
  | some t => decide (now - t ≥ (st.config.min_time_between_trades_minutes : ℚ) * 60)

/-- `RiskManager._calculate_total_exposure`: sum of
`quantity * current_price` over every recorded position. -/
def _calculate_total_exposure (st : RMState) : ℚ :=
  (st.positions.map (fun sp => (sp.2.map (fun p => p.quantity * p.current_price)).sum)).sum

/-- `RiskManager._calculate_daily_loss`: the source is a stub that returns
`0.0` pending database integration. -/
def _calculate_daily_loss (_st : RMState) : ℚ := 0

/-- `RiskManager._calculate_drawdown`: the source is a stub that returns
`0.0` pending database integration. -/
def _calculate_drawdown (_st : RMState) : ℚ := 0

/-- Base risk amount in `calculate_position_size`:
`account_balance * (max_risk_per_trade_percent / 100)`. -/
def base_risk_amount (cfg : RiskConfig) (account_balance : ℚ) : ℚ :=
  account_balance * (cfg.max_risk_per_trade_percent / 100)

/-- Risk amount after the volatility adjustment in
`calculate_position_size`: halved when the symbol volatility exceeds
`max_volatility_threshold`.  `vol` is the oracle standing for
`_get_symbol_volatility` (an external cache/exchange read). -/
def risk_after_volatility (cfg : RiskConfig) (vol : String → ℚ)
    (symbol : String) (account_balance : ℚ) : ℚ :=
  if vol symbol > cfg.max_volatility_threshold then
    base_risk_amount cfg account_balance * (1/2)
  else
    base_risk_amount cfg account_balance

/-- `planned_position_usdt` local of `calculate_position_size`:
`min(risk_amount, max_position_size_usdt)` computed after the volatility
adjustment. -/
def planned_position_usdt (cfg : RiskConfig) (vol : String → ℚ)
    (symbol : String) (account_balance : ℚ) : ℚ :=
  min (risk_after_volatility cfg vol symbol account_balance) cfg.max_position_size_usdt

/-- The liquidity-halving test of `calculate_position_size`:
`liquidity < min_liquidity_to_position_k * planned_position_usdt`.
`liq` is the oracle standing for `_get_symbol_liquidity`. -/
def liquidity_halving (cfg : RiskConfig) (vol liq : String → ℚ)
    (symbol : String) (account_balance : ℚ) : Prop :=
  liq symbol < cfg.min_liquidity_to_position_k *
    planned_position_usdt cfg vol symbol account_balance

instance (cfg : RiskConfig) (vol liq : String → ℚ) (symbol : String)
    (account_balance : ℚ) :
    Decidable (liquidity_halving cfg vol liq symbol account_balance) := by
  unfold liquidity_halving; infer_instance

/-- `RiskManager.calculate_position_size`: base risk amount, halved on high
volatility, halved again when liquidity is below
`min_liquidity_to_position_k × planned position value`; the final quantity
is `min(risk_amount, max_position_size_usdt) / entry_price`. -/
def calculate_position_size (cfg : RiskConfig) (vol liq : String → ℚ)
    (symbol : String) (entry_price account_balance : ℚ) : ℚ :=
  let risk_amount := risk_after_volatility cfg vol symbol account_balance
  let risk_amount :=
    if liquidity_halving cfg vol liq symbol account_balance then
      risk_amount * (1/2)
    else
      risk_amount
  let position_size_usdt := min risk_amount cfg.max_position_size_usdt
  position_size_usdt / entry_price

/-- Structured stand-ins for the reason strings returned by
`RiskManager.validate_trade` (one constructor per source message, carrying
the numbers interpolated into the f-string). -/
inductive TradeReason where
  | tooFrequent
  | positionTooLarge (position_value limit : ℚ)
  | exposureTooLarge (total_exposure limit : ℚ)
  | maxPositionsReached (symbol : String)
  | dailyLossExceeded (daily_loss limit : ℚ)
  | drawdownExceeded (drawdown limit : ℚ)
  | volatilityExceeded (volatility limit : ℚ)
  | liquidityTooLow (liquidity required : ℚ)
  | allowed
  deriving Repr, DecidableEq

/-- `RiskManager.validate_trade`: the eight checks in source order,
short-circuiting on the first failure.  `now`, `vol`, `liq` stand for
`datetime.utcnow()`, `_get_symbol_volatility` and `_get_symbol_liquidity`.
The unused `account_balance` parameter is kept from the source
signature. -/
def validate_trade (st : RMState) (now : ℚ) (vol liq : String → ℚ)
    (symbol side : String) (quantity price account_balance : ℚ) :
    Bool × TradeReason :=
  if ¬ _check_time_between_trades st now symbol then
    (false, .tooFrequent)
  else
    let position_value := quantity * price
    if position_value > st.config.max_position_size_usdt then
      (false, .positionTooLarge position_value st.config.max_position_size_usdt)
    else
      let total_exposure := _calculate_total_exposure st + position_value
      if total_exposure > st.config.max_total_exposure_usdt then
        (false, .exposureTooLarge total_exposure st.config.max_total_exposure_usdt)
      else
        if (match st.positions.lookup symbol with
            | some ps => decide (ps.length ≥ st.config.max_positions_per_symbol)
            | none => false) then
          (false, .maxPositionsReached symbol)
        else
          let daily_loss := _calculate_daily_loss st
          if daily_loss < -st.config.max_daily_loss_usdt then
            (false, .dailyLossExceeded daily_loss st.config.max_daily_loss_usdt)
          else
            let drawdown := _calculate_drawdown st
            if drawdown > st.config.max_drawdown_percent then
              (false, .drawdownExceeded drawdown st.config.max_drawdown_percent)
            else
              let volatility := vol symbol
              if volatility > st.config.max_volatility_threshold then
                (false, .volatilityExceeded volatility st.config.max_volatility_threshold)
              else
                let liquidity := liq symbol
                let required_liquidity := max st.config.min_liquidity_usdt
                  (st.config.min_liquidity_to_position_k * position_value)
                if liquidity < required_liquidity then
                  (false, .liquidityTooLow liquidity required_liquidity)
                else
                  (true, .allowed)

/-- Spec-side description of `validate_trade` (from the spec's words): the
eight checks in the spec's order, each as a pair (did this check fail?,
reason identifying the check). -/
def validate_trade_checks (st : RMState) (now : ℚ) (vol liq : String → ℚ)
    (symbol : String) (quantity price : ℚ) : List (Bool × TradeReason) :=
  let position_value := quantity * price
  let total_exposure := _calculate_total_exposure st + position_value
  let required_liquidity := max st.config.min_liquidity_usdt
    (st.config.min_liquidity_to_position_k * position_value)
  [ (!(_check_time_between_trades st now symbol), .tooFrequent),
    (decide (position_value > st.config.max_position_size_usdt),
      .positionTooLarge position_value st.config.max_position_size_usdt),
    (decide (total_exposure > st.config.max_total_exposure_usdt),
      .exposureTooLarge total_exposure st.config.max_total_exposure_usdt),
    ((match st.positions.lookup symbol with
      | some ps => decide (ps.length ≥ st.config.max_positions_per_symbol)
      | none => false),
      .maxPositionsReached symbol),
    (decide (_calculate_daily_loss st < -st.config.max_daily_loss_usdt),
      .dailyLossExceeded (_calculate_daily_loss st) st.config.max_daily_loss_usdt),
    (decide (_calculate_drawdown st > st.config.max_drawdown_percent),
      .drawdownExceeded (_calculate_drawdown st) st.config.max_drawdown_percent),
    (decide (vol symbol > st.config.max_volatility_threshold),
      .volatilityExceeded (vol symbol) st.config.max_volatility_threshold),
    (decide (liq symbol < required_liquidity),
      .liquidityTooLow (liq symbol) required_liquidity) ]

/-- Spec-side short-circuit evaluator: the first failing check's reason, or
success when every check passes. -/
def first_failing : List (Bool × TradeReason) → Bool × TradeReason
  | [] => (true, .allowed)
  | (failed, r) :: rest => if failed then (false, r) else first_failing rest

/-- Structured stand-ins for the reason strings returned by
`validate_risk_config` in `app/risk_config.py` (one constructor per
message, in source order). -/
inductive ConfigReason where
  | positionSizePositive
  | totalExposurePositive
  | dailyLossPositive
  | drawdownRange
  | stopLossRange
  | takeProfitRange
  | riskPerTradeRange
  | holdingTimePositive
  | timeBetweenTradesPositive
  | volatilityRange
  | liquidityPositive
  | positionExceedsExposure
  | stopNotBelowTake
  | valid
  deriving Repr, DecidableEq

/-- `validate_risk_config` from `app/risk_config.py`: the eleven range
checks in source order, then the two cross-field checks, each returning
`(False, reason)` on the first failure, else `(True, "Конфігурація
валідна")`. -/
def validate_risk_config (config : RiskConfig) : Bool × ConfigReason :=
  if config.max_position_size_usdt ≤ 0 then
    (false, .positionSizePositive)
  else if config.max_total_exposure_usdt ≤ 0 then
    (false, .totalExposurePositive)
  else if config.max_daily_loss_usdt ≤ 0 then
    (false, .dailyLossPositive)
  else if config.max_drawdown_percent ≤ 0 ∨ config.max_drawdown_percent > 100 then
    (false, .drawdownRange)
  else if config.stop_loss_percent ≤ 0 ∨ config.stop_loss_percent > 50 then
    (false, .stopLossRange)
  else if config.take_profit_percent ≤ 0 ∨ config.take_profit_percent > 100 then
    (false, .takeProfitRange)
  else if config.max_risk_per_trade_percent ≤ 0 ∨ config.max_risk_per_trade_percent > 10 then
    (false, .riskPerTradeRange)
  else if config.max_holding_time_hours ≤ 0 then
    (false, .holdingTimePositive)
  else if config.min_time_between_trades_minutes ≤ 0 then
    (false, .timeBetweenTradesPositive)
  else if config.max_volatility_threshold ≤ 0 ∨ config.max_volatility_threshold > 1 then
    (false, .volatilityRange)
  else if config.min_liquidity_usdt ≤ 0 then
    (false, .liquidityPositive)
  else if config.max_position_size_usdt > config.max_total_exposure_usdt then
    (false, .positionExceedsExposure)
  else if config.stop_loss_percent ≥ config.take_profit_percent then
    (false, .stopNotBelowTake)
  else
    (true, .valid)

/-- Spec-side predicate (from the spec's words, §8): "some numeric field of
`c` is outside its documented range".  The documented ranges are the ones
named in the spec/config documentation: the strictly-positive fields, plus
drawdown in (0,100], stop loss in (0,50], take profit in (0,100], risk per
trade in (0,10] and volatility threshold in (0,1]. -/
def some_field_out_of_range (c : RiskConfig) : Prop :=
  c.max_position_size_usdt ≤ 0 ∨
  c.max_total_exposure_usdt ≤ 0 ∨
  c.max_daily_loss_usdt ≤ 0 ∨
  (c.max_drawdown_percent ≤ 0 ∨ c.max_drawdown_percent > 100) ∨
  (c.stop_loss_percent ≤ 0 ∨ c.stop_loss_percent > 50) ∨
  (c.take_profit_percent ≤ 0 ∨ c.take_profit_percent > 100) ∨
  (c.max_risk_per_trade_percent ≤ 0 ∨ c.max_risk_per_trade_percent > 10) ∨
  c.max_holding_time_hours ≤ 0 ∨
  c.min_time_between_trades_minutes ≤ 0 ∨
  (c.max_volatility_threshold ≤ 0 ∨ c.max_volatility_threshold > 1) ∨
  c.min_liquidity_usdt ≤ 0

/-- Spec-side rejection predicate for C5 (from the spec's words):
out-of-range field, or `stopLossPercent ≥ takeProfitPercent`, or
`maxPositionSize > maxTotalExposure`. -/
def spec_rejects (c : RiskConfig) : Prop :=
  some_field_out_of_range c ∨
  c.stop_loss_percent ≥ c.take_profit_percent ∨
  c.max_position_size_usdt > c.max_total_exposure_usdt

end ScalpBot

namespace ScalpBot

/-- C4: with `0 < stop_loss_percent`, `0 < take_profit_percent ≤ 100` and
`entry_price > 0`, the stop-loss and take-profit prices computed for the
same `(entry_price, side)` bracket the entry: `SL < entry < TP` for BUY and
`TP < entry < SL` for any other side, with the exact multiplicative
values. -/
theorem stop_take_bracket_entry (cfg : RiskConfig) (entry_price : ℚ)
    (side : String)
    (hsl : 0 < cfg.stop_loss_percent)
    (htp : 0 < cfg.take_profit_percent)
    (htp100 : cfg.take_profit_percent ≤ 100)
    (hentry : 0 < entry_price) :
    (side = "BUY" →
      calculate_stop_loss_price cfg entry_price side
          = entry_price * (1 - cfg.stop_loss_percent / 100) ∧
      calculate_take_profit_price cfg entry_price side
          = entry_price * (1 + cfg.take_profit_percent / 100) ∧
      calculate_stop_loss_price cfg entry_price side < entry_price ∧
      entry_price < calculate_take_profit_price cfg entry_price side) ∧
    (side ≠ "BUY" →
      calculate_stop_loss_price cfg entry_price side
          = entry_price * (1 + cfg.stop_loss_percent / 100) ∧
      calculate_take_profit_price cfg entry_price side
          = entry_price * (1 - cfg.take_profit_percent / 100) ∧
      calculate_take_profit_price cfg entry_price side < entry_price ∧
      entry_price < calculate_stop_loss_price cfg entry_price side) := by
  constructor
  · intro hside
    subst hside
    rw [calculate_stop_loss_price, calculate_take_profit_price,
      if_pos rfl, if_pos rfl]
    refine ⟨rfl, rfl, ?_, ?_⟩ <;> nlinarith
  · intro hside
    rw [calculate_stop_loss_price, calculate_take_profit_price,
      if_neg hside, if_neg hside]
    refine ⟨rfl, rfl, ?_, ?_⟩ <;> nlinarith

/-- Witness for C4 at the default config, entry 100, side BUY. -/
theorem stop_take_bracket_entry_witness :
    calculate_stop_loss_price {} 100 "BUY" < 100 ∧
    100 < calculate_take_profit_price {} 100 "BUY" := by
  have h := stop_take_bracket_entry {} 100 "BUY"
    (by norm_num) (by norm_num) (by norm_num) (by norm_num)
  exact ⟨(h.1 rfl).2.2.1, (h.1 rfl).2.2.2⟩

/-- C5: `validate_risk_config` returns `false` exactly when some numeric
field is outside its documented range, or stop loss ≥ take profit, or max
position size exceeds max total exposure. -/
theorem validate_risk_config_iff (c : RiskConfig) :
    (validate_risk_config c).1 = false ↔ spec_rejects c := by
  unfold validate_risk_config
  by_cases h1 : c.max_position_size_usdt ≤ 0
  · rw [if_pos h1]
    exact iff_of_true rfl (by unfold spec_rejects some_field_out_of_range; exact Or.inl (Or.inl h1))
  rw [if_neg h1]
  by_cases h2 : c.max_total_exposure_usdt ≤ 0
  · rw [if_pos h2]
    exact iff_of_true rfl (by unfold spec_rejects some_field_out_of_range; exact Or.inl (Or.inr (Or.inl h2)))
  rw [if_neg h2]
  by_cases h3 : c.max_daily_loss_usdt ≤ 0
  · rw [if_pos h3]
    exact iff_of_true rfl (by unfold spec_rejects some_field_out_of_range; exact Or.inl (Or.inr (Or.inr (Or.inl h3))))
  rw [if_neg h3]
  by_cases h4 : c.max_drawdown_percent ≤ 0 ∨ c.max_drawdown_percent > 100
  · rw [if_pos h4]
    exact iff_of_true rfl (by unfold spec_rejects some_field_out_of_range; exact Or.inl (Or.inr (Or.inr (Or.inr (Or.inl h4)))))
  rw [if_neg h4]
  by_cases h5 : c.stop_loss_percent ≤ 0 ∨ c.stop_loss_percent > 50
  · rw [if_pos h5]
    exact iff_of_true rfl (by unfold spec_rejects some_field_out_of_range; exact Or.inl (Or.inr (Or.inr (Or.inr (Or.inr (Or.inl h5))))))
  rw [if_neg h5]
  by_cases h6 : c.take_profit_percent ≤ 0 ∨ c.take_profit_percent > 100
  · rw [if_pos h6]
    exact iff_of_true rfl (by unfold spec_rejects some_field_out_of_range; exact Or.inl (Or.inr (Or.inr (Or.inr (Or.inr (Or.inr (Or.inl h6)))))))
  rw [if_neg h6]
  by_cases h7 : c.max_risk_per_trade_percent ≤ 0 ∨ c.max_risk_per_trade_percent > 10
  · rw [if_pos h7]
    exact iff_of_true rfl (by unfold spec_rejects some_field_out_of_range; exact Or.inl (Or.inr (Or.inr (Or.inr (Or.inr (Or.inr (Or.inr (Or.inl h7))))))))
  rw [if_neg h7]
  by_cases h8 : c.max_holding_time_hours ≤ 0
  · rw [if_pos h8]
    exact iff_of_true rfl (by unfold spec_rejects some_field_out_of_range; exact Or.inl (Or.inr (Or.inr (Or.inr (Or.inr (Or.inr (Or.inr (Or.inr (Or.inl h8)))))))))
  rw [if_neg h8]
  by_cases h9 : c.min_time_between_trades_minutes ≤ 0
  · rw [if_pos h9]
    exact iff_of_true rfl (by unfold spec_rejects some_field_out_of_range; exact Or.inl (Or.inr (Or.inr (Or.inr (Or.inr (Or.inr (Or.inr (Or.inr (Or.inr (Or.inl h9))))))))))
  rw [if_neg h9]
  by_cases h10 : c.max_volatility_threshold ≤ 0 ∨ c.max_volatility_threshold > 1
  · rw [if_pos h10]
    exact iff_of_true rfl (by unfold spec_rejects some_field_out_of_range; exact Or.inl (Or.inr (Or.inr (Or.inr (Or.inr (Or.inr (Or.inr (Or.inr (Or.inr (Or.inr (Or.inl h10)))))))))))
  rw [if_neg h10]
  by_cases h11 : c.min_liquidity_usdt ≤ 0
  · rw [if_pos h11]
    exact iff_of_true rfl (by unfold spec_rejects some_field_out_of_range; exact Or.inl (Or.inr (Or.inr (Or.inr (Or.inr (Or.inr (Or.inr (Or.inr (Or.inr (Or.inr (Or.inr h11)))))))))))
  rw [if_neg h11]
  by_cases h12 : c.max_position_size_usdt > c.max_total_exposure_usdt
  · rw [if_pos h12]
    exact iff_of_true rfl (by unfold spec_rejects some_field_out_of_range; exact Or.inr (Or.inr h12))
  rw [if_neg h12]
  by_cases h13 : c.stop_loss_percent ≥ c.take_profit_percent
  · rw [if_pos h13]
    exact iff_of_true rfl (by unfold spec_rejects some_field_out_of_range; exact Or.inr (Or.inl h13))
  rw [if_neg h13]
  refine iff_of_false (by simp) ?_
  intro hs
  unfold spec_rejects some_field_out_of_range at hs
  rcases hs with (h | h | h | h | h | h | h | h | h | h | h) | hb | hc
  exacts [h1 h, h2 h, h3 h, h4 h, h5 h, h6 h, h7 h, h8 h, h9 h, h10 h, h11 h,
    h13 hb, h12 hc]

end ScalpBot

namespace ScalpBot

/-- C1: when `last_trade_time` has no entry for the symbol, `validate_trade`
equals the spec-side short-circuit evaluation of its eight ordered checks
(first failing check's reason, success otherwise); in particular with
`max_position_size_usdt = 1000`, `quantity = 1`, `price = 2000` it rejects
with the position-size reason carrying 2000 and 1000, regardless of the
state and of the volatility/liquidity oracles. -/
theorem validate_trade_first_failure (st : RMState) (now : ℚ)
    (vol liq : String → ℚ) (symbol side : String)
    (quantity price account_balance : ℚ)
    (hfresh : st.last_trade_time.lookup symbol = none) :
    validate_trade st now vol liq symbol side quantity price account_balance
      = first_failing (validate_trade_checks st now vol liq symbol quantity price) ∧
    (st.config.max_position_size_usdt = 1000 → quantity = 1 → price = 2000 →
      validate_trade st now vol liq symbol side quantity price account_balance
        = (false, .positionTooLarge 2000 1000)) := by
  have hc : _check_time_between_trades st now symbol = true := by
    unfold _check_time_between_trades
    rw [hfresh]
  constructor
  · unfold validate_trade validate_trade_checks
    simp only [first_failing, Bool.not_eq_true', Bool.not_eq_true,
      decide_eq_true_eq, Bool.not_eq_eq_eq_not, Bool.not_true]
  · intro hmax hq hp
    subst hq hp
    unfold validate_trade
    rw [if_neg (by simp [hc]), if_pos (by rw [hmax]; norm_num), hmax]
    norm_num

/-- Witness for C1: fresh default-config manager, quantity 1, price 2000,
with oracles that would also fail the volatility check later. -/
theorem validate_trade_first_failure_witness :
    validate_trade { config := {} } 0 (fun _ => 1) (fun _ => 0)
        "BTCUSDT" "BUY" 1 2000 10000
      = (false, .positionTooLarge 2000 1000) :=
  (validate_trade_first_failure { config := {} } 0 (fun _ => 1) (fun _ => 0)
    "BTCUSDT" "BUY" 1 2000 10000 rfl).2 rfl rfl rfl

/-- C2 counterexample: `calculate_position_size` is not monotone in the
account balance.  With the default config, zero volatility and liquidity
fixed at 100 USDT, balance 500 yields quantity 10 but balance 501 yields
quantity 5.01: the liquidity-halving branch switches on between the two
balances. -/
theorem calculate_position_size_not_monotone :
    (500 : ℚ) ≤ 501 ∧
    calculate_position_size {} (fun _ => 0) (fun _ => 100) "BTCUSDT" 1 501
      < calculate_position_size {} (fun _ => 0) (fun _ => 100) "BTCUSDT" 1 500 := by
  refine ⟨by norm_num, ?_⟩
  norm_num [calculate_position_size, risk_after_volatility, base_risk_amount,
    liquidity_halving, planned_position_usdt, min_def]

/-- C2 amended: `calculate_position_size` is monotone in the account
balance (for a fixed positive entry price, non-negative risk percent and
fixed volatility/liquidity) provided the liquidity-halving condition
evaluates identically at the two balances. -/
theorem calculate_position_size_monotone (cfg : RiskConfig)
    (vol liq : String → ℚ) (symbol : String) (entry_price b1 b2 : ℚ)
    (hentry : 0 < entry_price)
    (hrisk : 0 ≤ cfg.max_risk_per_trade_percent)
    (hb : b1 ≤ b2)
    (hbranch : liquidity_halving cfg vol liq symbol b1
      ↔ liquidity_halving cfg vol liq symbol b2) :
    calculate_position_size cfg vol liq symbol entry_price b1
      ≤ calculate_position_size cfg vol liq symbol entry_price b2 := by
  have hbase : base_risk_amount cfg b1 ≤ base_risk_amount cfg b2 := by
    unfold base_risk_amount
    apply mul_le_mul_of_nonneg_right hb
    positivity
  have hrav : risk_after_volatility cfg vol symbol b1
      ≤ risk_after_volatility cfg vol symbol b2 := by
    unfold risk_after_volatility
    split_ifs
    · exact mul_le_mul_of_nonneg_right hbase (by norm_num)
    · exact hbase
  unfold calculate_position_size
  rw [div_le_div_iff_of_pos_right hentry]
  by_cases h1 : liquidity_halving cfg vol liq symbol b1
  · rw [if_pos h1, if_pos (hbranch.mp h1)]
    exact min_le_min (mul_le_mul_of_nonneg_right hrav (by norm_num)) le_rfl
  · rw [if_neg h1, if_neg (fun h2 => h1 (hbranch.mpr h2))]
    exact min_le_min hrav le_rfl

/-- Witness for C2 amended: default config, zero volatility, deep
liquidity, balances 100 and 200 (no halving at either). -/
theorem calculate_position_size_monotone_witness :
    calculate_position_size {} (fun _ => 0) (fun _ => 2000000) "BTCUSDT" 1 100
      ≤ calculate_position_size {} (fun _ => 0) (fun _ => 2000000) "BTCUSDT" 1 200 :=
  calculate_position_size_monotone {} (fun _ => 0) (fun _ => 2000000)
    "BTCUSDT" 1 100 200 (by norm_num) (by norm_num) (by norm_num)
    (by norm_num [liquidity_halving, planned_position_usdt,
      risk_after_volatility, base_risk_amount, min_def])

end ScalpBot

namespace ScalpBot

/-- `CacheEntry` from `app/services/cache.py`: payload, store time
(`time.time()`, modelled as a rational number of seconds) and TTL in
seconds (an int in the source). -/
structure CacheEntry (α : Type) where
  data : α
  timestamp : ℚ
  ttl : ℤ
  deriving Repr, DecidableEq

/-- `CacheEntry.is_expired`: `time.time() - timestamp > ttl`, with the
current time passed explicitly. -/
def CacheEntry.is_expired (e : CacheEntry α) (now : ℚ) : Bool :=
  decide (now - e.timestamp > (e.ttl : ℚ))

/-- The `_stats` counters of `TradingCache`. -/
structure CacheStats where
  hits : ℕ := 0
  misses : ℕ := 0
  sets : ℕ := 0
  evictions : ℕ := 0
  deriving Repr, DecidableEq

/-- `TradingCache` state: the `_cache` dict (generated key → entry,
modelled as an association list) and the `_stats` counters. -/
structure TradingCache (α : Type) where
  entries : List (String × CacheEntry α) := []
  stats : CacheStats := {}
  deriving Repr

/-- `TradingCache.get` at the level of an already-generated key: a live
entry is a hit; an expired entry is deleted and counted as an eviction,
after which control falls through to the miss counter; a missing key is a
miss.  Returns the looked-up value together with the updated cache
state. -/
def TradingCache.get (c : TradingCache α) (now : ℚ) (key : String) :
    Option α × TradingCache α :=
  match c.entries.lookup key with
  | some entry =>
    if ¬ entry.is_expired now then
      (some entry.data,
        { c with stats := { c.stats with hits := c.stats.hits + 1 } })
    else
      (none,
        { c with
          entries := c.entries.filter (fun kv => kv.1 != key),
          stats := { c.stats with
            evictions := c.stats.evictions + 1,
            misses := c.stats.misses + 1 } })
  | none =>
    (none, { c with stats := { c.stats with misses := c.stats.misses + 1 } })

/-- Deleting a key from the dict model removes every binding of that
key. -/
theorem lookup_filter_ne_self {β : Type} (key : String)
    (l : List (String × β)) :
    (l.filter (fun kv => kv.1 != key)).lookup key = none := by
  induction l with
  | nil => rfl
  | cons a t ih =>
    rw [List.filter_cons]
    by_cases h : a.1 = key
    · rw [if_neg (by simp [h])]
      exact ih
    · rw [if_pos (by simp [h])]
      obtain ⟨k, v⟩ := a
      simp only at h
      simpa [List.lookup_cons, beq_false_of_ne (Ne.symm h)] using ih

/-- `RiskMetrics` from `app/services/risk_management.py`. -/
structure RiskMetrics where
  total_exposure : ℚ
  max_drawdown : ℚ
  win_rate : ℚ
  avg_win : ℚ
  avg_loss : ℚ
  sharpe_ratio : ℚ
  max_position_size : ℚ
  daily_pnl : ℚ
  volatility : ℚ
  deriving Repr, DecidableEq

/-- `RiskLevel` from `app/services/risk_management.py`. -/
inductive RiskLevel where
  | LOW
  | MEDIUM
  | HIGH
  | CRITICAL
  deriving Repr, DecidableEq

/-- `MonitoringService._analyze_risk_level` from
`app/services/monitoring.py`: CRITICAL when exposure, daily loss or
drawdown is strictly beyond 90% of its limit, then the same tests at 70%
(HIGH) and 50% (MEDIUM), else LOW. -/
def _analyze_risk_level (cfg : RiskConfig) (m : RiskMetrics) : RiskLevel :=
  if m.total_exposure > cfg.max_total_exposure_usdt * (9/10) ∨
      m.daily_pnl < -cfg.max_daily_loss_usdt * (9/10) ∨
      m.max_drawdown > cfg.max_drawdown_percent * (9/10) then
    .CRITICAL
  else if m.total_exposure > cfg.max_total_exposure_usdt * (7/10) ∨
      m.daily_pnl < -cfg.max_daily_loss_usdt * (7/10) ∨
      m.max_drawdown > cfg.max_drawdown_percent * (7/10) then
    .HIGH
  else if m.total_exposure > cfg.max_total_exposure_usdt * (5/10) ∨
      m.daily_pnl < -cfg.max_daily_loss_usdt * (5/10) ∨
      m.max_drawdown > cfg.max_drawdown_percent * (5/10) then
    .MEDIUM
  else
    .LOW

end ScalpBot

namespace ScalpBot

/-- C6: `get` on a key whose stored entry satisfies
`now - storedAt > ttl` returns a miss, removes the stale entry, increments
both the miss and the eviction counter by exactly one, and a subsequent
`get` on the same key (at any time) is also a miss. -/
theorem cache_get_expired_entry (α : Type) (c : TradingCache α)
    (now now2 : ℚ) (key : String) (e : CacheEntry α)
    (hfound : c.entries.lookup key = some e)
    (hexp : now - e.timestamp > (e.ttl : ℚ)) :
    (c.get now key).1 = none ∧
    ((c.get now key).2).entries.lookup key = none ∧
    ((c.get now key).2).stats.misses = c.stats.misses + 1 ∧
    ((c.get now key).2).stats.evictions = c.stats.evictions + 1 ∧
    (((c.get now key).2).get now2 key).1 = none := by
  have hexpired : e.is_expired now = true := by
    unfold CacheEntry.is_expired
    exact decide_eq_true hexp
  have hget : c.get now key =
      (none,
        { c with
          entries := c.entries.filter (fun kv => kv.1 != key),
          stats := { c.stats with
            evictions := c.stats.evictions + 1,
            misses := c.stats.misses + 1 } }) := by
    unfold TradingCache.get
    rw [hfound]
    simp [hexpired]
  rw [hget]
  refine ⟨rfl, lookup_filter_ne_self key c.entries, rfl, rfl, ?_⟩
  unfold TradingCache.get
  rw [lookup_filter_ne_self key c.entries]

/-- Witness for C6: a one-entry cache whose entry was stored at time 0 with
TTL 1, read at time 2. -/
theorem cache_get_expired_entry_witness :
    ((TradingCache.get
      { entries := [("k", { data := 7, timestamp := 0, ttl := 1 })] }
      2 "k" : Option ℕ × TradingCache ℕ)).1 = none ∧
    ((TradingCache.get
      { entries := [("k", { data := 7, timestamp := 0, ttl := 1 })] }
      2 "k" : Option ℕ × TradingCache ℕ)).2.stats.evictions = 0 + 1 := by
  have h := cache_get_expired_entry ℕ
    { entries := [("k", { data := 7, timestamp := 0, ttl := 1 })] }
    2 3 "k" { data := 7, timestamp := 0, ttl := 1 } rfl (by norm_num)
  exact ⟨h.1, h.2.2.2.1⟩

/-- C8 counterexample: with the default limits, a metrics snapshot whose
total exposure is exactly 90% of `max_total_exposure_usdt` (4500 of 5000)
is classified HIGH, not CRITICAL, because the source compares with strict
`>`. -/
theorem analyze_risk_level_boundary_not_critical :
    ({ total_exposure := 4500, max_drawdown := 0, win_rate := 0, avg_win := 0,
       avg_loss := 0, sharpe_ratio := 0, max_position_size := 1000,
       daily_pnl := 0, volatility := 0 } : RiskMetrics).total_exposure
      = ({} : RiskConfig).max_total_exposure_usdt * (9/10) ∧
    _analyze_risk_level {}
      { total_exposure := 4500, max_drawdown := 0, win_rate := 0, avg_win := 0,
        avg_loss := 0, sharpe_ratio := 0, max_position_size := 1000,
        daily_pnl := 0, volatility := 0 } = RiskLevel.HIGH ∧
    RiskLevel.HIGH ≠ RiskLevel.CRITICAL := by
  refine ⟨by norm_num, ?_, by decide⟩
  unfold _analyze_risk_level
  norm_num

/-- C8 amended: the classifier returns CRITICAL exactly when exposure,
daily loss or drawdown is strictly beyond 90% of its limit, HIGH exactly
when none is beyond 90% but one is strictly beyond 70%, MEDIUM exactly when
none is beyond 70% but one is strictly beyond 50%, and LOW otherwise; at an
exact 90%/70%/50% boundary the lower level results. -/
theorem analyze_risk_level_spec (cfg : RiskConfig) (m : RiskMetrics) :
    (_analyze_risk_level cfg m = .CRITICAL ↔
      (m.total_exposure > cfg.max_total_exposure_usdt * (9/10) ∨
       m.daily_pnl < -cfg.max_daily_loss_usdt * (9/10) ∨
       m.max_drawdown > cfg.max_drawdown_percent * (9/10))) ∧
    (_analyze_risk_level cfg m = .HIGH ↔
      (¬ (m.total_exposure > cfg.max_total_exposure_usdt * (9/10) ∨
          m.daily_pnl < -cfg.max_daily_loss_usdt * (9/10) ∨
          m.max_drawdown > cfg.max_drawdown_percent * (9/10)) ∧
       (m.total_exposure > cfg.max_total_exposure_usdt * (7/10) ∨
        m.daily_pnl < -cfg.max_daily_loss_usdt * (7/10) ∨
        m.max_drawdown > cfg.max_drawdown_percent * (7/10)))) ∧
    (_analyze_risk_level cfg m = .MEDIUM ↔
      (¬ (m.total_exposure > cfg.max_total_exposure_usdt * (9/10) ∨
          m.daily_pnl < -cfg.max_daily_loss_usdt * (9/10) ∨
          m.max_drawdown > cfg.max_drawdown_percent * (9/10)) ∧
       ¬ (m.total_exposure > cfg.max_total_exposure_usdt * (7/10) ∨
          m.daily_pnl < -cfg.max_daily_loss_usdt * (7/10) ∨
          m.max_drawdown > cfg.max_drawdown_percent * (7/10)) ∧
       (m.total_exposure > cfg.max_total_exposure_usdt * (5/10) ∨
        m.daily_pnl < -cfg.max_daily_loss_usdt * (5/10) ∨
        m.max_drawdown > cfg.max_drawdown_percent * (5/10)))) ∧
    (_analyze_risk_level cfg m = .LOW ↔
      (¬ (m.total_exposure > cfg.max_total_exposure_usdt * (9/10) ∨
          m.daily_pnl < -cfg.max_daily_loss_usdt * (9/10) ∨
          m.max_drawdown > cfg.max_drawdown_percent * (9/10)) ∧
       ¬ (m.total_exposure > cfg.max_total_exposure_usdt * (7/10) ∨
          m.daily_pnl < -cfg.max_daily_loss_usdt * (7/10) ∨
          m.max_drawdown > cfg.max_drawdown_percent * (7/10)) ∧
       ¬ (m.total_exposure > cfg.max_total_exposure_usdt * (5/10) ∨
          m.daily_pnl < -cfg.max_daily_loss_usdt * (5/10) ∨
          m.max_drawdown > cfg.max_drawdown_percent * (5/10)))) := by
  unfold _analyze_risk_level
  by_cases h9 : m.total_exposure > cfg.max_total_exposure_usdt * (9/10) ∨
      m.daily_pnl < -cfg.max_daily_loss_usdt * (9/10) ∨
      m.max_drawdown > cfg.max_drawdown_percent * (9/10)
  · rw [if_pos h9]
    refine ⟨iff_of_true rfl h9, iff_of_false (by decide) ?_,
      iff_of_false (by decide) ?_, iff_of_false (by decide) ?_⟩ <;>
      exact fun hcontra => hcontra.1 h9
  rw [if_neg h9]
  by_cases h7 : m.total_exposure > cfg.max_total_exposure_usdt * (7/10) ∨
      m.daily_pnl < -cfg.max_daily_loss_usdt * (7/10) ∨
      m.max_drawdown > cfg.max_drawdown_percent * (7/10)
  · rw [if_pos h7]
    refine ⟨iff_of_false (by decide) (fun hcontra => h9 hcontra),
      iff_of_true rfl ⟨h9, h7⟩,
      iff_of_false (by decide) (fun hcontra => hcontra.2.1 h7),
      iff_of_false (by decide) (fun hcontra => hcontra.2.1 h7)⟩
  rw [if_neg h7]
  by_cases h5 : m.total_exposure > cfg.max_total_exposure_usdt * (5/10) ∨
      m.daily_pnl < -cfg.max_daily_loss_usdt * (5/10) ∨
      m.max_drawdown > cfg.max_drawdown_percent * (5/10)
  · rw [if_pos h5]
    exact ⟨iff_of_false (by decide) (fun hcontra => h9 hcontra),
      iff_of_false (by decide) (fun hcontra => h7 hcontra.2),
      iff_of_true rfl ⟨h9, h7, h5⟩,
      iff_of_false (by decide) (fun hcontra => hcontra.2.2 h5)⟩
  rw [if_neg h5]
  exact ⟨iff_of_false (by decide) (fun hcontra => h9 hcontra),
    iff_of_false (by decide) (fun hcontra => h7 hcontra.2),
    iff_of_false (by decide) (fun hcontra => h5 hcontra.2.2),
    iff_of_true rfl ⟨h9, h7, h5⟩⟩

end ScalpBot

namespace ScalpBot

/-- `Decimal.to_integral_value(rounding=ROUND_DOWN)`: truncation toward
zero. -/
def truncQ (x : ℚ) : ℤ :=
  if 0 ≤ x then ⌊x⌋ else ⌈x⌉

/-- `Decimal.to_integral_value(rounding=ROUND_UP)`: rounding away from
zero. -/
def awayQ (x : ℚ) : ℤ :=
  if 0 ≤ x then ⌈x⌉ else ⌊x⌋

/-- `round_to_step` local of `BinanceAPI._apply_filters`: returns `value`
unchanged when the step is non-positive, otherwise
`to_integral_value(value / step) * step` with the requested rounding
(`up = true` for ROUND_UP, `false` for ROUND_DOWN). -/
def round_to_step (value step : ℚ) (up : Bool) : ℚ :=
  if step ≤ 0 then value
  else ((if up then awayQ (value / step) else truncQ (value / step) : ℤ) : ℚ) * step

/-- The exchange filter values extracted from `get_symbol_info` in
`BinanceAPI._apply_filters` (`None` when the filter is absent). -/
structure SymbolFilters where
  step_size : Option ℚ := none
  min_qty : Option ℚ := none
  tick_size : Option ℚ := none
  min_price : Option ℚ := none
  min_notional : Option ℚ := none
  deriving Repr, DecidableEq

/-- `BinanceAPI._apply_filters` after the filter values have been parsed
(the `info` fetch and the final string formatting are presentation and are
not modelled): quantize price down to the tick, clamp to the minimum
price, quantize quantity down to the step, clamp to the minimum quantity,
bump the quantity up (rounded up to the step) when below the minimum
notional, and finally force a positive quantity.  Returns
`(quantity, price)`. -/
def _apply_filters (f : SymbolFilters) (quantity price : ℚ) : ℚ × ℚ :=
  let p := match f.tick_size with
    | some ts => round_to_step price ts false
    | none => price
  let p := match f.min_price with
    | some mp => if p < mp then mp else p
    | none => p
  let q := match f.step_size with
    | some ss => round_to_step quantity ss false
    | none => quantity
  let q := match f.min_qty with
    | some mq => if q < mq then mq else q
    | none => q
  let q := match f.min_notional with
    | some mn =>
      if p * q < mn ∧ p > 0 then
        match f.step_size with
        | some ss => round_to_step (mn / p) ss true
        | none => mn / p
      else q
    | none => q
  let q := if q ≤ 0 then
      (match f.min_qty with
       | some mq => mq
       | none => 1/100000000)
    else q
  (q, p)

end ScalpBot

namespace ScalpBot

/-- C7: with `stepSize = 0.001` and `minNotional = 10`, the proposed
quantity 0.0005 at price 100 is first rounded down to the step (giving 0),
then bumped to the step-rounded-up quantity `0.1 = 100 × 0.001` satisfying
`price × quantity = 10 ≥ 10`. -/
theorem apply_filters_min_notional_scenario :
    round_to_step (5/10000) (1/1000) false = 0 ∧
    _apply_filters { step_size := some (1/1000), min_notional := some 10 }
        (5/10000) 100
      = (round_to_step (10/100) (1/1000) true, 100) ∧
    _apply_filters { step_size := some (1/1000), min_notional := some 10 }
        (5/10000) 100
      = (1/10, 100) ∧
    (1/10 : ℚ) = (100 : ℤ) * (1/1000 : ℚ) ∧
    100 * (1/10 : ℚ) ≥ 10 := by
  have hdown : round_to_step (5/10000) (1/1000) false = 0 := by
    norm_num [round_to_step, truncQ]
  have hup : round_to_step (10/100) (1/1000) true = 1/10 := by
    norm_num [round_to_step, awayQ]
  refine ⟨hdown, ?_, ?_, by norm_num, by norm_num⟩ <;>
  · unfold _apply_filters
    simp only [hdown, hup]
    norm_num

end ScalpBot

namespace ScalpBot

/-- `DEFAULT_RISK_CONFIG` from `app/risk_config.py` (its explicit values
coincide with the dataclass defaults; `min_liquidity_to_position_k` is not
passed and keeps its default). -/
def DEFAULT_RISK_CONFIG : RiskConfig :=
  { max_position_size_usdt := 1000, max_total_exposure_usdt := 5000,
    max_positions_per_symbol := 1, max_daily_loss_usdt := 200,
    max_drawdown_percent := 10, stop_loss_percent := 5,
    take_profit_percent := 10, max_risk_per_trade_percent := 2,
    max_correlation_threshold := 7/10, max_holding_time_hours := 24,
    min_time_between_trades_minutes := 30, max_volatility_threshold := 1/20,
    min_liquidity_usdt := 1000000 }

/-- `CONSERVATIVE_RISK_CONFIG` from `app/risk_config.py`. -/
def CONSERVATIVE_RISK_CONFIG : RiskConfig :=
  { max_position_size_usdt := 500, max_total_exposure_usdt := 2500,
    max_positions_per_symbol := 1, max_daily_loss_usdt := 100,
    max_drawdown_percent := 5, stop_loss_percent := 3,
    take_profit_percent := 6, max_risk_per_trade_percent := 1,
    max_correlation_threshold := 5/10, max_holding_time_hours := 12,
    min_time_between_trades_minutes := 60, max_volatility_threshold := 3/100,
    min_liquidity_usdt := 2000000 }

/-- `AGGRESSIVE_RISK_CONFIG` from `app/risk_config.py`. -/
def AGGRESSIVE_RISK_CONFIG : RiskConfig :=
  { max_position_size_usdt := 2000, max_total_exposure_usdt := 10000,
    max_positions_per_symbol := 2, max_daily_loss_usdt := 400,
    max_drawdown_percent := 15, stop_loss_percent := 7,
    take_profit_percent := 15, max_risk_per_trade_percent := 3,
    max_correlation_threshold := 8/10, max_holding_time_hours := 48,
    min_time_between_trades_minutes := 15, max_volatility_threshold := 8/100,
    min_liquidity_usdt := 500000 }

/-- `ASSET_SPECIFIC_CONFIGS` from `app/risk_config.py` (each entry sets
only a few fields; the rest keep the dataclass defaults). -/
def ASSET_SPECIFIC_CONFIGS : List (String × RiskConfig) :=
  [ ("BTCUSDT",
     { max_position_size_usdt := 1500,
       max_volatility_threshold := 6/100, min_liquidity_usdt := 5000000 }),
    ("ETHUSDT",
     { max_position_size_usdt := 1200,
       max_volatility_threshold := 7/100, min_liquidity_usdt := 3000000 }),
    ("BNBUSDT",
     { max_position_size_usdt := 800,
       max_volatility_threshold := 8/100, min_liquidity_usdt := 2000000 }) ]

/-- `TIMEFRAME_SPECIFIC_CONFIGS` from `app/risk_config.py`. -/
def TIMEFRAME_SPECIFIC_CONFIGS : List (String × RiskConfig) :=
  [ ("1m",
     { max_holding_time_hours := 1, min_time_between_trades_minutes := 5,
       stop_loss_percent := 2, take_profit_percent := 3 }),
    ("5m",
     { max_holding_time_hours := 4, min_time_between_trades_minutes := 15,
       stop_loss_percent := 3, take_profit_percent := 6 }),
    ("15m",
     { max_holding_time_hours := 8, min_time_between_trades_minutes := 30,
       stop_loss_percent := 4, take_profit_percent := 8 }),
    ("1h",
     { max_holding_time_hours := 24, min_time_between_trades_minutes := 60,
       stop_loss_percent := 5, take_profit_percent := 10 }),
    ("4h",
     { max_holding_time_hours := 72, min_time_between_trades_minutes := 120,
       stop_loss_percent := 7, take_profit_percent := 15 }) ]

/-- The per-field `setattr` loop of `get_risk_config`: each field of the
overlay replaces the base field exactly when it differs from the fresh
`RiskConfig()` default for that field. -/
def merge_non_default (base overlay : RiskConfig) : RiskConfig where
  max_position_size_usdt :=
    if overlay.max_position_size_usdt ≠ ({} : RiskConfig).max_position_size_usdt
    then overlay.max_position_size_usdt else base.max_position_size_usdt
  max_total_exposure_usdt :=
    if overlay.max_total_exposure_usdt ≠ ({} : RiskConfig).max_total_exposure_usdt
    then overlay.max_total_exposure_usdt else base.max_total_exposure_usdt
  max_positions_per_symbol :=
    if overlay.max_positions_per_symbol ≠ ({} : RiskConfig).max_positions_per_symbol
    then overlay.max_positions_per_symbol else base.max_positions_per_symbol
  max_daily_loss_usdt :=
    if overlay.max_daily_loss_usdt ≠ ({} : RiskConfig).max_daily_loss_usdt
    then overlay.max_daily_loss_usdt else base.max_daily_loss_usdt
  max_drawdown_percent :=
    if overlay.max_drawdown_percent ≠ ({} : RiskConfig).max_drawdown_percent
    then overlay.max_drawdown_percent else base.max_drawdown_percent
  stop_loss_percent :=
    if overlay.stop_loss_percent ≠ ({} : RiskConfig).stop_loss_percent
    then overlay.stop_loss_percent else base.stop_loss_percent
  take_profit_percent :=
    if overlay.take_profit_percent ≠ ({} : RiskConfig).take_profit_percent
    then overlay.take_profit_percent else base.take_profit_percent
  max_risk_per_trade_percent :=
    if overlay.max_risk_per_trade_percent ≠ ({} : RiskConfig).max_risk_per_trade_percent
    then overlay.max_risk_per_trade_percent else base.max_risk_per_trade_percent
  max_correlation_threshold :=
    if overlay.max_correlation_threshold ≠ ({} : RiskConfig).max_correlation_threshold
    then overlay.max_correlation_threshold else base.max_correlation_threshold
  max_holding_time_hours :=
    if overlay.max_holding_time_hours ≠ ({} : RiskConfig).max_holding_time_hours
    then overlay.max_holding_time_hours else base.max_holding_time_hours
  min_time_between_trades_minutes :=
    if overlay.min_time_between_trades_minutes ≠ ({} : RiskConfig).min_time_between_trades_minutes
    then overlay.min_time_between_trades_minutes else base.min_time_between_trades_minutes
  max_volatility_threshold :=
    if overlay.max_volatility_threshold ≠ ({} : RiskConfig).max_volatility_threshold
    then overlay.max_volatility_threshold else base.max_volatility_threshold
  min_liquidity_usdt :=
    if overlay.min_liquidity_usdt ≠ ({} : RiskConfig).min_liquidity_usdt
    then overlay.min_liquidity_usdt else base.min_liquidity_usdt
  min_liquidity_to_position_k :=
    if overlay.min_liquidity_to_position_k ≠ ({} : RiskConfig).min_liquidity_to_position_k
    then overlay.min_liquidity_to_position_k else base.min_liquidity_to_position_k

/-- The mutable module-level state of `app/risk_config.py`: the three
profile config objects (the asset/timeframe tables are only read). -/
structure RiskConfigModuleState where
  DEFAULT_RISK_CONFIG : RiskConfig
  CONSERVATIVE_RISK_CONFIG : RiskConfig
  AGGRESSIVE_RISK_CONFIG : RiskConfig
  deriving Repr, DecidableEq

/-- The module state right after import of `app/risk_config.py`. -/
def initial_risk_config_module : RiskConfigModuleState :=
  { DEFAULT_RISK_CONFIG := DEFAULT_RISK_CONFIG,
    CONSERVATIVE_RISK_CONFIG := CONSERVATIVE_RISK_CONFIG,
    AGGRESSIVE_RISK_CONFIG := AGGRESSIVE_RISK_CONFIG }

/-- `get_risk_config` from `app/risk_config.py`.  `base_config` is a
reference to the selected module-level config object, and the merge loops
`setattr` into that shared object, so the updated object is written back
into the module state; the function returns the (aliased) config together
with the new module state. -/
def get_risk_config (st : RiskConfigModuleState) (profile : String)
    (asset : Option String) (timeframe : Option String) :
    RiskConfig × RiskConfigModuleState :=
  let base_config :=
    if profile = "conservative" then st.CONSERVATIVE_RISK_CONFIG
    else if profile = "aggressive" then st.AGGRESSIVE_RISK_CONFIG
    else st.DEFAULT_RISK_CONFIG
  let base_config :=
    match asset with
    | some a =>
      match ASSET_SPECIFIC_CONFIGS.lookup a with
      | some asset_config => merge_non_default base_config asset_config
      | none => base_config
    | none => base_config
  let base_config :=
    match timeframe with
    | some tf =>
      match TIMEFRAME_SPECIFIC_CONFIGS.lookup tf with
      | some timeframe_config => merge_non_default base_config timeframe_config
      | none => base_config
    | none => base_config
  let st :=
    if profile = "conservative" then
      { st with CONSERVATIVE_RISK_CONFIG := base_config }
    else if profile = "aggressive" then
      { st with AGGRESSIVE_RISK_CONFIG := base_config }
    else
      { st with DEFAULT_RISK_CONFIG := base_config }
  (base_config, st)

end ScalpBot

namespace ScalpBot

/-- C9: `get_risk_config("default", asset="BTCUSDT")` writes the BTC
override `max_position_size_usdt = 1500` into the module-level
`DEFAULT_RISK_CONFIG` object (1000 before the call), so the module-level
configs are not left unchanged. -/
theorem get_risk_config_mutates_module_default :
    initial_risk_config_module.DEFAULT_RISK_CONFIG.max_position_size_usdt = 1000 ∧
    ((get_risk_config initial_risk_config_module "default"
        (some "BTCUSDT") none).2).DEFAULT_RISK_CONFIG.max_position_size_usdt = 1500 ∧
    ((get_risk_config initial_risk_config_module "default"
        (some "BTCUSDT") none).2).DEFAULT_RISK_CONFIG
      ≠ initial_risk_config_module.DEFAULT_RISK_CONFIG := by
  have hbase : (get_risk_config initial_risk_config_module "default"
      (some "BTCUSDT") none).2.DEFAULT_RISK_CONFIG
      = merge_non_default DEFAULT_RISK_CONFIG
          { max_position_size_usdt := 1500,
            max_volatility_threshold := 6/100, min_liquidity_usdt := 5000000 } := by
    rfl
  rw [hbase]
  refine ⟨rfl, ?_, ?_⟩ <;>
    norm_num [merge_non_default, DEFAULT_RISK_CONFIG,
      initial_risk_config_module, RiskConfig.mk.injEq]

end ScalpBot

namespace ScalpBot

/-- Python's `max(iterable, key=...)` fold as used on the votes dict:
keep the current best key, replacing it only when a later key's value is
strictly greater, so the first maximal key wins. -/
def py_max_key : (String × ℚ) → List (String × ℚ) → String
  | (k, _), [] => k
  | (k, v), (k2, v2) :: rest =>
    if v2 > v then py_max_key (k2, v2) rest else py_max_key (k, v) rest

/-- `final_signal = max(votes, key=votes.get)` in `detect_signal`
(`app/services/ai_signals.py`): the votes dict is created with its keys in
the order BUY, SELL, HOLD, so the argmax scans them in that order. -/
def final_signal_of_votes (votesBUY votesSELL votesHOLD : ℚ) : String :=
  py_max_key ("BUY", votesBUY) [("SELL", votesSELL), ("HOLD", votesHOLD)]

/-- The dict returned by `detect_signal`.  The `details` dict and the
ISO timestamp string are presentation payload and are carried opaquely by
the weights/error fields we model; `weights` keeps the three vote totals
(the source rounds them to 2 decimals for display). -/
structure SignalResponse where
  symbol : String
  final_signal : String
  weights : List (String × ℚ) := []
  error : Option String := none
  deriving Repr, DecidableEq

/-- The control-flow skeleton of `detect_signal`
(`app/services/ai_signals.py` lines 246-343): the whole body runs inside a
single `try`.  `pipeline` stands for the outcome of steps 1-7 (fetching,
per-timeframe technicals, regime, external classifiers, weighted vote),
delivering the three vote totals or the exception they raised; `persist`
stands for the `db.add`/`db.commit` block, which sits inside the same
`try` with only a `finally: db.close()` — an exception raised there is
caught by the outer `except`, which returns the ERROR dict. -/
def detect_signal (symbol : String)
    (pipeline : Except String (ℚ × ℚ × ℚ))
    (persist : Except String Unit) : SignalResponse :=
  match pipeline with
  | .error e => { symbol := symbol, final_signal := "ERROR", error := some e }
  | .ok (vB, vS, vH) =>
    match persist with
    | .error e => { symbol := symbol, final_signal := "ERROR", error := some e }
    | .ok _ =>
      { symbol := symbol,
        final_signal := final_signal_of_votes vB vS vH,
        weights := [("BUY", vB), ("SELL", vS), ("HOLD", vH)] }

end ScalpBot

namespace ScalpBot

/-- C3: when the vote pipeline succeeds (here with totals 0.5/0.25/0.25,
final signal BUY) but persisting the decision raises, `detect_signal`
returns the ERROR response instead of the computed decision — the
persistence failure does change `final_signal` to "ERROR". -/
theorem detect_signal_persist_failure_yields_error :
    detect_signal "BTCUSDT" (Except.ok (1/2, 1/4, 1/4))
        (Except.error "db commit failed")
      = { symbol := "BTCUSDT", final_signal := "ERROR",
          error := some "db commit failed" } ∧
    detect_signal "BTCUSDT" (Except.ok (1/2, 1/4, 1/4)) (Except.ok ())
      = { symbol := "BTCUSDT", final_signal := "BUY",
          weights := [("BUY", 1/2), ("SELL", 1/4), ("HOLD", 1/4)] } ∧
    ("ERROR" : String) ≠ "BUY" := by
  refine ⟨rfl, ?_, by decide⟩
  have hv : final_signal_of_votes (1/2) (1/4) (1/4) = "BUY" := by
    norm_num [final_signal_of_votes, py_max_key]
  show ({ symbol := "BTCUSDT",
          final_signal := final_signal_of_votes (1/2) (1/4) (1/4),
          weights := [("BUY", 1/2), ("SELL", 1/4), ("HOLD", 1/4)] }
      : SignalResponse) = _
  rw [hv]

/-- C10: the vote argmax is deterministic with the fixed preference order
BUY > SELL > HOLD: BUY wins whenever its total is maximal (including all
ties involving BUY), SELL wins whenever it is maximal and strictly beats
BUY (including a SELL/HOLD tie), and HOLD wins only when strictly maximal. -/
theorem final_signal_tie_break (vB vS vH : ℚ) :
    (vB ≥ vS ∧ vB ≥ vH → final_signal_of_votes vB vS vH = "BUY") ∧
    (vS > vB ∧ vS ≥ vH → final_signal_of_votes vB vS vH = "SELL") ∧
    (vH > vB ∧ vH > vS → final_signal_of_votes vB vS vH = "HOLD") := by
  unfold final_signal_of_votes
  simp only [py_max_key]
  refine ⟨fun h => ?_, fun h => ?_, fun h => ?_⟩ <;>
    split_ifs <;> first | rfl | (exfalso; obtain ⟨h1, h2⟩ := h; linarith)

/-- Witness for C10: a BUY/SELL tie at the maximum resolves to BUY, and a
SELL/HOLD tie above BUY resolves to SELL. -/
theorem final_signal_tie_break_witness :
    final_signal_of_votes (1/2) (1/2) 0 = "BUY" ∧
    final_signal_of_votes (1/4) (3/8) (3/8) = "SELL" :=
  ⟨(final_signal_tie_break (1/2) (1/2) 0).1 ⟨by norm_num, by norm_num⟩,
   (final_signal_tie_break (1/4) (3/8) (3/8)).2.1 ⟨by norm_num, by norm_num⟩⟩

end ScalpBot
